import Mathlib

/-!
Shallow embedding of `sync_monitors.py`: a reconciler that brings an
uptime-monitoring registry in line with a server inventory.  Python strings
are `String`, values that may be `None` are `Option`; external effects
(subprocess runs, registry POST/PATCH calls) are recorded as an event list,
and the outcome of each subprocess run is supplied by an oracle argument.
-/

namespace SyncMonitors

/-- Python truthiness of a string: `False` exactly for the empty string. -/
def pyTruthy (s : String) : Bool := !s.data.isEmpty

/-- Python truthiness of an optional string: `None` and `""` are falsy. -/
def truthyOpt : Option String → Bool
  | none => false
  | some s => pyTruthy s

/-- The whitespace characters Python's `str.strip` removes (ASCII part). -/
def isSpaceChar (c : Char) : Bool :=
  c = ' ' || c = '\t' || c = '\n' || c = '\r' || c = '\x0b' || c = '\x0c'

/-- Strip leading and trailing whitespace from a character list. -/
def stripList (l : List Char) : List Char :=
  ((l.dropWhile isSpaceChar).reverse.dropWhile isSpaceChar).reverse

/-- Python `s.strip()`. -/
def pyStrip (s : String) : String := String.mk (stripList s.data)

/-- Helper for `pySplit`: accumulates the current segment (reversed). -/
def splitDotAux : List Char → List Char → List (List Char)
  | [], acc => [acc.reverse]
  | c :: cs, acc =>
    if c = '.' then acc.reverse :: splitDotAux cs []
    else splitDotAux cs (c :: acc)

/-- Python `s.split('.')`: always at least one segment (`"".split('.') = [""]`). -/
def pySplit (s : String) : List String :=
  (splitDotAux s.data []).map String.mk

/-- Python `s.lower()` (ASCII case folding is all the program needs). -/
def pyLower (s : String) : String := String.mk (s.data.map Char.toLower)

/-- Does the pattern occur at the head of the list? -/
def subAt : List Char → List Char → Bool
  | _, [] => true
  | [], _ :: _ => false
  | c :: cs, d :: ds => (c = d) && subAt cs ds

/-- Does the pattern occur anywhere in the list? -/
def hasSub : List Char → List Char → Bool
  | [], pat => pat.isEmpty
  | c :: rest, pat => subAt (c :: rest) pat || hasSub rest pat

/-- Python `pat in hay` on strings: substring containment. -/
def containsSub (hay pat : String) : Bool := hasSub hay.data pat.data

/-- The process environment the script reads at startup:
`Main_API_key`, `SSH_USERNAME`, `SSH_PASSWORD`, and `platform.machine()`. -/
structure Env where
  apiKey : Option String
  sshUser : Option String
  sshPass : Option String
  machine : String
deriving DecidableEq

/-- Outcome of a completed subprocess run (`subprocess.run` result). -/
structure SubprocResult where
  returncode : Int
  stdout : String
  stderr : String
deriving DecidableEq

/-- Body of a POST `/v3/monitors` request (`create_monitor`'s payload). -/
structure CreatePayload where
  friendlyName : String
  url : String
  type : String
  interval : Nat
deriving DecidableEq

/-- Body of a PATCH `/v3/monitors/{id}` request (`update_monitor`'s payload). -/
structure UpdatePayload where
  url : String
deriving DecidableEq

/-- Observable side effects of a run: subprocess spawns and registry calls. -/
inductive Event where
  | spawn (cmd : List String)
  | createCall (payload : CreatePayload)
  | updateCall (id : Nat) (payload : UpdatePayload)
deriving DecidableEq

/-- The registry-mutating calls of an event trace (spawns filtered out). -/
def registryCalls (events : List Event) : List Event :=
  events.filter fun e =>
    match e with
    | Event.spawn _ => false
    | _ => true

/-- The `arch` string `get_cloudflared_binary` computes from `cpu_type`:
`"arm64"` when the hint is truthy and contains `"arm"` (lowercased),
`"amd64"` in the `elif "amd"` branch and by default. -/
def archOf (cpu_type : Option String) : String :=
  match cpu_type with
  | none => "amd64"
  | some s =>
    if pyTruthy s && containsSub (pyLower s) "arm" then "arm64"
    else if pyTruthy s && containsSub (pyLower s) "amd" then "amd64"
    else "amd64"

/-- `get_cloudflared_binary(cpu_type)`: the chosen binary path, paired with
whether the architecture-mismatch warning is printed.  `machine` is
`platform.machine()` of the host. -/
def get_cloudflared_binary (cpu_type : Option String) (machine : String) :
    String × Bool :=
  let arch := archOf cpu_type
  let binary_path := "bin/cloudflared-linux-" ++ arch
  let current_arch := pyLower machine
  (binary_path, containsSub current_arch "x86_64" && containsSub arch "arm")

/-- The argument vector `get_public_ip` hands to `subprocess.run`. -/
def ssh_command (env : Env) (cloudflared_bin ssh_host : String) : List String :=
  let proxy_cmd := cloudflared_bin ++ " access ssh --hostname " ++ ssh_host
  ["sshpass", "-p", env.sshPass.getD "",
   "ssh",
   "-o", "ProxyCommand=" ++ proxy_cmd,
   "-o", "StrictHostKeyChecking=no",
   "-o", "ConnectTimeout=20",
   env.sshUser.getD "" ++ "@" ++ ssh_host,
   "curl -s -4 ifconfig.me"]

/-- What `get_public_ip` makes of a completed subprocess: the stripped
stdout when the exit code is zero and it splits on `'.'` into exactly four
segments, otherwise nothing (`Invalid IP` / `SSH failed` log lines). -/
def resolve_output (result : SubprocResult) : Option String :=
  if result.returncode = 0 then
    if (pySplit (pyStrip result.stdout)).length = 4 then some (pyStrip result.stdout)
    else none
  else none

/-- `get_public_ip(ssh_host, cpu_type)`: events performed and value returned.
`outcome` is what `subprocess.run` produced, `none` standing for a timeout or
other exception (the `except` arms).  With missing SSH credentials nothing is
spawned; otherwise the subprocess runs once and its output is validated by
`resolve_output`. -/
def get_public_ip (env : Env) (ssh_host : String) (cpu_type : Option String)
    (outcome : Option SubprocResult) : List Event × Option String :=
  if !(truthyOpt env.sshUser) || !(truthyOpt env.sshPass) then
    ([], none)
  else
    let cloudflared_bin := (get_cloudflared_binary cpu_type env.machine).1
    let cmd := ssh_command env cloudflared_bin ssh_host
    ([Event.spawn cmd],
      match outcome with
      | none => none
      | some result => resolve_output result)

/-- A monitor record as the registry's list endpoint returns it:
`friendly_name` and `id` are accessed with `m['...']` (required),
`url` with `.get` (may be absent). -/
structure Monitor where
  id : Nat
  friendly_name : String
  url : Option String
deriving DecidableEq

/-- Insert with Python-dict semantics: replace an existing key in place,
otherwise append. -/
def insertKV : List (String × Monitor) → String → Monitor →
    List (String × Monitor)
  | [], k, v => [(k, v)]
  | (k', v') :: rest, k, v =>
    if k' = k then (k, v) :: rest
    else (k', v') :: insertKV rest k v

/-- Dictionary lookup on the association list. -/
def lookupKV : List (String × Monitor) → String → Option Monitor
  | [], _ => none
  | (k', v) :: rest, k => if k' = k then some v else lookupKV rest k

/-- The dict comprehension `{m['friendly_name']: m for m in monitors}`. -/
def buildDict (monitors : List Monitor) : List (String × Monitor) :=
  monitors.foldl (fun d m => insertKV d m.friendly_name m) []

/-- The decoded JSON body of the GET `/v3/monitors` response:
`stat` read with `.get`, `monitors` with `.get('monitors', [])`. -/
structure ApiResponse where
  stat : Option String
  monitors : List Monitor
deriving DecidableEq

/-- `get_current_monitors()`: `resp` is the decoded response, `none` standing
for a transport or JSON-decoding failure (the `except` arm). -/
def get_current_monitors (resp : Option ApiResponse) :
    List (String × Monitor) :=
  match resp with
  | none => []
  | some data =>
    if data.stat = some "ok" then buildDict data.monitors
    else []

/-- `create_monitor(name, url)`: the POST it issues, as an event. -/
def create_monitor (name url : String) : Event :=
  Event.createCall { friendlyName := name, url := url, type := "PING", interval := 300 }

/-- `update_monitor(monitor_id, name, new_url)`: the PATCH it issues.
`name` is only used for logging in the source. -/
def update_monitor (monitor_id : Nat) (name : String) (new_url : String) : Event :=
  Event.updateCall monitor_id { url := new_url }

/-- One inventory entry; every field is read with `server.get(...)`. -/
structure ServerRecord where
  name : Option String
  ssh_host : Option String
  cpu_type : Option String
deriving DecidableEq

/-- One iteration of `main`'s loop body for a single server record:
the events it performs.  `world` maps an ssh host to the subprocess
outcome the environment would produce for it. -/
def processServer (env : Env) (world : String → Option SubprocResult)
    (current_monitors : List (String × Monitor)) (server : ServerRecord) :
    List Event :=
  if !(truthyOpt server.name) || !(truthyOpt server.ssh_host) then []
  else
    let name := server.name.getD ""
    let ssh_host := server.ssh_host.getD ""
    let cpu_type := server.cpu_type.getD "amd64"
    let events := (get_public_ip env ssh_host (some cpu_type) (world ssh_host)).1
    match (get_public_ip env ssh_host (some cpu_type) (world ssh_host)).2 with
    | none => events
    | some public_ip =>
      if !(pyTruthy public_ip) then events
      else
        match lookupKV current_monitors name with
        | some monitor =>
          if monitor.url ≠ some public_ip then
            events ++ [update_monitor monitor.id name public_ip]
          else events
        | none => events ++ [create_monitor name public_ip]

/-- `main()`: fetch inventory (given here as `servers`), fetch the monitor
snapshot, and reconcile each record in order.  An empty inventory returns
before the snapshot is used. -/
def main (env : Env) (servers : List ServerRecord)
    (monResp : Option ApiResponse) (world : String → Option SubprocResult) :
    List Event :=
  if servers.isEmpty then []
  else
    let current_monitors := get_current_monitors monResp
    (servers.map (processServer env world current_monitors)).flatten

/-- The whole process: the module-level `Main_API_key` check runs before any
work (`exit(1)`), otherwise `main()` runs and the process exits 0. -/
def runProcess (env : Env) (servers : List ServerRecord)
    (monResp : Option ApiResponse) (world : String → Option SubprocResult) :
    Nat × List Event :=
  if !(truthyOpt env.apiKey) then (1, [])
  else (0, main env servers monResp world)

/-! ### A spec-side predicate for the architecture hint -/

/-- Spec reading of the tunnel selector's condition: the hint is present and
contains `"arm"` case-insensitively. -/
def hint_requests_arm (cpu_type : Option String) : Bool :=
  match cpu_type with
  | none => false
  | some s => containsSub (pyLower s) "arm"

/-! ### Helper lemmas -/

lemma registryCalls_append (a b : List Event) :
    registryCalls (a ++ b) = registryCalls a ++ registryCalls b := by
  unfold registryCalls
  rw [List.filter_append]

lemma registryCalls_fst_get_public_ip (env : Env) (ssh_host : String)
    (cpu_type : Option String) (outcome : Option SubprocResult) :
    registryCalls (get_public_ip env ssh_host cpu_type outcome).1 = [] := by
  unfold get_public_ip
  split
  · rfl
  · rfl

lemma get_public_ip_snd_some (env : Env) (ssh_host : String)
    (cpu_type : Option String) (result : SubprocResult)
    (hu : truthyOpt env.sshUser = true) (hp : truthyOpt env.sshPass = true) :
    (get_public_ip env ssh_host cpu_type (some result)).2
      = resolve_output result := by
  unfold get_public_ip
  rw [hu, hp]
  rfl

lemma resolve_output_some {result : SubprocResult} {ip : String}
    (h : resolve_output result = some ip) :
    result.returncode = 0 ∧ (pySplit (pyStrip result.stdout)).length = 4
      ∧ ip = pyStrip result.stdout := by
  unfold resolve_output at h
  split at h
  · split at h
    · exact ⟨by assumption, by assumption, (Option.some.inj h).symm⟩
    · cases h
  · cases h

lemma pySplit_nil (s : String) (h : s.data = []) : (pySplit s).length = 1 := by
  unfold pySplit
  rw [h]
  rfl

lemma pyTruthy_of_four_segments (s : String)
    (h : (pySplit s).length = 4) : pyTruthy s = true := by
  cases hd : s.data with
  | nil => rw [pySplit_nil s hd] at h; cases h
  | cons c cs => unfold pyTruthy; rw [hd]; rfl

lemma get_public_ip_some {env : Env} {ssh_host : String}
    {cpu_type : Option String} {outcome : Option SubprocResult} {ip : String}
    (h : (get_public_ip env ssh_host cpu_type outcome).2 = some ip) :
    ∃ result, outcome = some result ∧ resolve_output result = some ip := by
  unfold get_public_ip at h
  split at h
  · cases h
  · cases outcome with
    | none => cases h
    | some result => exact ⟨result, rfl, h⟩

lemma get_public_ip_some_truthy {env : Env} {ssh_host : String}
    {cpu_type : Option String} {outcome : Option SubprocResult} {ip : String}
    (h : (get_public_ip env ssh_host cpu_type outcome).2 = some ip) :
    pyTruthy ip = true := by
  obtain ⟨result, -, hr⟩ := get_public_ip_some h
  obtain ⟨-, hlen, hip⟩ := resolve_output_some hr
  subst hip
  exact pyTruthy_of_four_segments _ hlen

lemma containsSub_empty_arm (s : String) (h : s.data = []) :
    containsSub (pyLower s) "arm" = false := by
  unfold containsSub pyLower
  rw [h]
  rfl

lemma archOf_eq (cpu_type : Option String) :
    archOf cpu_type = if hint_requests_arm cpu_type then "arm64" else "amd64" := by
  cases cpu_type with
  | none => rfl
  | some s =>
    simp only [archOf, hint_requests_arm]
    cases hd : s.data with
    | nil =>
      have hc := containsSub_empty_arm s hd
      have ht : pyTruthy s = false := by unfold pyTruthy; rw [hd]; rfl
      simp [ht, hc]
    | cons c cs =>
      have ht : pyTruthy s = true := by unfold pyTruthy; rw [hd]; rfl
      by_cases hc : containsSub (pyLower s) "arm" = true
      · simp [ht, hc]
      · simp [ht, hc]

lemma mem_insertKV {d : List (String × Monitor)} {k : String} {v : Monitor}
    {p : String × Monitor} (hp : p ∈ insertKV d k v) :
    p = (k, v) ∨ p ∈ d := by
  induction d with
  | nil =>
    unfold insertKV at hp
    exact Or.inl (List.mem_singleton.mp hp)
  | cons q tl ih =>
    obtain ⟨k', v'⟩ := q
    unfold insertKV at hp
    split at hp
    · rcases List.mem_cons.mp hp with h | h
      · exact Or.inl h
      · exact Or.inr (List.mem_cons_of_mem _ h)
    · rcases List.mem_cons.mp hp with h | h
      · exact Or.inr (h ▸ List.mem_cons_self _ _)
      · rcases ih h with h' | h'
        · exact Or.inl h'
        · exact Or.inr (List.mem_cons_of_mem _ h')

lemma buildDict_key (monitors : List Monitor) :
    ∀ p ∈ buildDict monitors, p.1 = p.2.friendly_name := by
  suffices h : ∀ d : List (String × Monitor),
      (∀ p ∈ d, p.1 = p.2.friendly_name) →
      ∀ p ∈ monitors.foldl (fun d m => insertKV d m.friendly_name m) d,
        p.1 = p.2.friendly_name by
    exact h [] (by intro p hp; cases hp)
  induction monitors with
  | nil => intro d hd; simpa using hd
  | cons m tl ih =>
    intro d hd
    simp only [List.foldl_cons]
    refine ih _ ?_
    intro p hp
    rcases mem_insertKV hp with h | h
    · subst h; rfl
    · exact hd p h

lemma get_public_ip_no_creds (env : Env)
    (h : truthyOpt env.sshUser = false ∨ truthyOpt env.sshPass = false)
    (ssh_host : String) (cpu_type : Option String)
    (outcome : Option SubprocResult) :
    get_public_ip env ssh_host cpu_type outcome = ([], none) := by
  unfold get_public_ip
  rcases h with h | h <;> simp [h]

lemma processServer_no_creds (env : Env)
    (h : truthyOpt env.sshUser = false ∨ truthyOpt env.sshPass = false)
    (world : String → Option SubprocResult)
    (mons : List (String × Monitor)) (server : ServerRecord) :
    processServer env world mons server = [] := by
  unfold processServer
  split
  · rfl
  · simp only [get_public_ip_no_creds env h]

/-! ### Claim theorems -/

/-- Claim C1: for a record with truthy name and ssh host whose IP resolves
to `ip`, when the snapshot holds a monitor under that name whose stored url
differs from `ip`, the loop body issues exactly one registry call: an Update
carrying that monitor's id and payload `{url := ip}` — and no Create. -/
theorem update_on_changed_ip
    (env : Env) (world : String → Option SubprocResult)
    (mons : List (String × Monitor)) (server : ServerRecord)
    (ip : String) (monitor : Monitor)
    (hname : truthyOpt server.name = true)
    (hhost : truthyOpt server.ssh_host = true)
    (hres : (get_public_ip env (server.ssh_host.getD "")
        (some (server.cpu_type.getD "amd64"))
        (world (server.ssh_host.getD ""))).2 = some ip)
    (hmon : lookupKV mons (server.name.getD "") = some monitor)
    (hdiff : monitor.url ≠ some ip) :
    registryCalls (processServer env world mons server)
      = [Event.updateCall monitor.id { url := ip }] := by
  have hip : pyTruthy ip = true := get_public_ip_some_truthy hres
  unfold processServer
  rw [hname, hhost]
  simp only [Bool.not_true, Bool.or_self, Bool.false_eq_true, if_false,
    hres, hip, hmon]
  rw [if_pos hdiff]
  rw [registryCalls_append, registryCalls_fst_get_public_ip]
  rfl

/-- Claim C2: for a record with truthy name and ssh host whose IP resolves
to `ip`, when the snapshot holds no monitor under that name, the loop body
issues exactly one registry call: a Create with payload
`{friendlyName := name, url := ip, type := "PING", interval := 300}` — and
no Update. -/
theorem create_on_missing_monitor
    (env : Env) (world : String → Option SubprocResult)
    (mons : List (String × Monitor)) (server : ServerRecord) (ip : String)
    (hname : truthyOpt server.name = true)
    (hhost : truthyOpt server.ssh_host = true)
    (hres : (get_public_ip env (server.ssh_host.getD "")
        (some (server.cpu_type.getD "amd64"))
        (world (server.ssh_host.getD ""))).2 = some ip)
    (hmon : lookupKV mons (server.name.getD "") = none) :
    registryCalls (processServer env world mons server)
      = [Event.createCall ⟨server.name.getD "", ip, "PING", 300⟩] := by
  have hip : pyTruthy ip = true := get_public_ip_some_truthy hres
  unfold processServer
  rw [hname, hhost]
  simp only [Bool.not_true, Bool.or_self, Bool.false_eq_true, if_false,
    hres, hip, hmon]
  rw [registryCalls_append, registryCalls_fst_get_public_ip]
  rfl

/-- Claim C3: for a record with truthy name and ssh host whose IP resolves
to `ip`, when the snapshot holds a monitor under that name whose stored url
already equals `ip`, the loop body issues no registry-mutating call. -/
theorem noop_on_unchanged_ip
    (env : Env) (world : String → Option SubprocResult)
    (mons : List (String × Monitor)) (server : ServerRecord)
    (ip : String) (monitor : Monitor)
    (hname : truthyOpt server.name = true)
    (hhost : truthyOpt server.ssh_host = true)
    (hres : (get_public_ip env (server.ssh_host.getD "")
        (some (server.cpu_type.getD "amd64"))
        (world (server.ssh_host.getD ""))).2 = some ip)
    (hmon : lookupKV mons (server.name.getD "") = some monitor)
    (hsame : monitor.url = some ip) :
    registryCalls (processServer env world mons server) = [] := by
  have hip : pyTruthy ip = true := get_public_ip_some_truthy hres
  unfold processServer
  rw [hname, hhost]
  simp only [Bool.not_true, Bool.or_self, Bool.false_eq_true, if_false,
    hres, hip, hmon]
  rw [if_neg (by simp [hsame])]
  exact registryCalls_fst_get_public_ip env _ _ _

/-- Claim C4: a record whose name or ssh host is missing or empty produces
no events at all — no registry call and no subprocess spawn (so no IP
resolution is attempted). -/
theorem skip_record_missing_fields
    (env : Env) (world : String → Option SubprocResult)
    (mons : List (String × Monitor)) (server : ServerRecord)
    (h : truthyOpt server.name = false ∨ truthyOpt server.ssh_host = false) :
    processServer env world mons server = [] := by
  unfold processServer
  rcases h with h | h <;> simp [h]

/-! ### Witness fixtures -/

def wEnv : Env := ⟨some "key", some "alice", some "pw", "x86_64"⟩

def wWorld : String → Option SubprocResult :=
  fun _ => some ⟨0, "203.0.113.5\n", ""⟩

def wMonOld : Monitor := ⟨42, "edge1", some "203.0.113.1"⟩

def wMonSame : Monitor := ⟨7, "edge3", some "203.0.113.5"⟩

def wRec : ServerRecord := ⟨some "edge1", some "edge1.example.com", some "arm"⟩

def wRec2 : ServerRecord := ⟨some "edge2", some "edge2.example.com", none⟩

def wRec3 : ServerRecord := ⟨some "edge3", some "edge3.example.com", some "AMD64"⟩

/-- Witness for C1: the spec's own scenario — monitor 42 for `edge1` holds
`203.0.113.1`, the fresh IP is `203.0.113.5`, so one Update to id 42. -/
theorem update_on_changed_ip_witness :
    registryCalls (processServer wEnv wWorld [("edge1", wMonOld)] wRec)
      = [Event.updateCall 42 ⟨"203.0.113.5"⟩] :=
  update_on_changed_ip wEnv wWorld [("edge1", wMonOld)] wRec "203.0.113.5"
    wMonOld (by decide) (by decide) (by decide) (by decide) (by decide)

/-- Witness for C2: no monitor named `edge2` exists, so one Create. -/
theorem create_on_missing_monitor_witness :
    registryCalls (processServer wEnv wWorld [] wRec2)
      = [Event.createCall ⟨"edge2", "203.0.113.5", "PING", 300⟩] :=
  create_on_missing_monitor wEnv wWorld [] wRec2 "203.0.113.5"
    (by decide) (by decide) (by decide) (by decide)

/-- Witness for C3: monitor 7 for `edge3` already holds the fresh IP. -/
theorem noop_on_unchanged_ip_witness :
    registryCalls (processServer wEnv wWorld [("edge3", wMonSame)] wRec3) = [] :=
  noop_on_unchanged_ip wEnv wWorld [("edge3", wMonSame)] wRec3 "203.0.113.5"
    wMonSame (by decide) (by decide) (by decide) (by decide) (by decide)

/-- Witness for C4: a record with no name produces no events. -/
theorem skip_record_missing_fields_witness :
    processServer wEnv wWorld [] ⟨none, some "host", none⟩ = [] :=
  skip_record_missing_fields wEnv wWorld [] ⟨none, some "host", none⟩
    (Or.inl rfl)

/-- Claim C5: with SSH credentials present, the resolver returns the
stripped subprocess output exactly when the subprocess exits zero and that
output splits on `'.'` into four segments (no further validation), and any
output with a different segment count yields `none`. -/
theorem ip_validation_iff
    (env : Env) (ssh_host : String) (cpu_type : Option String)
    (result : SubprocResult)
    (hu : truthyOpt env.sshUser = true) (hp : truthyOpt env.sshPass = true) :
    ((get_public_ip env ssh_host cpu_type (some result)).2
        = some (pyStrip result.stdout)
      ↔ result.returncode = 0 ∧ (pySplit (pyStrip result.stdout)).length = 4)
    ∧ ((pySplit (pyStrip result.stdout)).length ≠ 4
      → (get_public_ip env ssh_host cpu_type (some result)).2 = none) := by
  have hsnd := get_public_ip_snd_some env ssh_host cpu_type result hu hp
  refine ⟨⟨fun h => ?_, fun h => ?_⟩, fun hlen => ?_⟩
  · rw [hsnd] at h
    obtain ⟨h0, hlen, -⟩ := resolve_output_some h
    exact ⟨h0, hlen⟩
  · rw [hsnd]
    unfold resolve_output
    rw [if_pos h.1, if_pos h.2]
  · rw [hsnd]
    simp [resolve_output, hlen]

/-- Witness for C5: exit 0 with output `" a.b..d\n"` — four segments, one
empty and none numeric — is accepted and returned stripped. -/
theorem ip_validation_iff_witness :
    (get_public_ip wEnv "h" (some "amd64") (some ⟨0, " a.b..d\n", ""⟩)).2
      = some (pyStrip " a.b..d\n") :=
  ((ip_validation_iff wEnv "h" (some "amd64") ⟨0, " a.b..d\n", ""⟩
      (by decide) (by decide)).1).mpr ⟨by decide, by decide⟩

/-- Claim C6: with the API key unset the process exits 1 before any work;
with it set the process exits 0, whatever the inventory, monitor snapshot
or per-server outcomes are (the run is a total function of them). -/
theorem exit_code_spec (env : Env) (servers : List ServerRecord)
    (monResp : Option ApiResponse) (world : String → Option SubprocResult) :
    (truthyOpt env.apiKey = false
      → runProcess env servers monResp world = (1, []))
    ∧ (truthyOpt env.apiKey = true
      → (runProcess env servers monResp world).1 = 0) := by
  constructor
  · intro h
    unfold runProcess
    rw [h]
    rfl
  · intro h
    unfold runProcess
    rw [h]
    rfl

/-- Claim C7: the selected binary path is the arm64 one exactly when the
cpu_type hint is present and contains `"arm"` case-insensitively; every
other hint — absent, empty, or unrecognized — selects the amd64 path. -/
theorem binary_selection_spec (cpu_type : Option String) (machine : String) :
    (get_cloudflared_binary cpu_type machine).1
      = if hint_requests_arm cpu_type then "bin/cloudflared-linux-arm64"
        else "bin/cloudflared-linux-amd64" := by
  simp only [get_cloudflared_binary, archOf_eq]
  split
  · rfl
  · rfl

/-- Counterexample for C8 as stated: on an `aarch64` host with no cpu_type
hint the amd64 binary is selected — a mismatch in the claim's second
direction — yet no warning is emitted. -/
theorem warn_missing_on_arm_host :
    (get_cloudflared_binary none "aarch64").1 = "bin/cloudflared-linux-amd64"
    ∧ (get_cloudflared_binary none "aarch64").2 = false := by
  decide

/-- Claim C8 (amended): the warning fires exactly when the host machine
string contains `"x86_64"` and the selected binary is the arm64 one — the
opposite mismatch never warns — and the returned path never depends on the
host machine. -/
theorem warn_only_x86_host (cpu_type : Option String) (machine other : String) :
    ((get_cloudflared_binary cpu_type machine).2
      = (containsSub (pyLower machine) "x86_64" && hint_requests_arm cpu_type))
    ∧ (get_cloudflared_binary cpu_type machine).1
      = (get_cloudflared_binary cpu_type other).1 := by
  constructor
  · have harm : containsSub (archOf cpu_type) "arm" = hint_requests_arm cpu_type := by
      rw [archOf_eq]
      by_cases hc : hint_requests_arm cpu_type = true
      · rw [if_pos hc, hc]
        decide
      · have hc' : hint_requests_arm cpu_type = false := by
          revert hc
          cases hint_requests_arm cpu_type <;> simp
        rw [if_neg hc, hc']
        decide
    simp only [get_cloudflared_binary]
    rw [harm]
  · rfl

/-- Claim C9: the monitor List operation yields the dictionary keyed by
`friendly_name` built from the response when `stat = "ok"`, and the empty
mapping when `stat` is anything else or the request/decoding failed; every
key of the result is its monitor's `friendly_name`. -/
theorem monitors_mapping_spec (resp : Option ApiResponse) :
    (∀ data, resp = some data → data.stat = some "ok"
      → get_current_monitors resp = buildDict data.monitors)
    ∧ (∀ data, resp = some data → data.stat ≠ some "ok"
      → get_current_monitors resp = [])
    ∧ (resp = none → get_current_monitors resp = [])
    ∧ (∀ p ∈ get_current_monitors resp, p.1 = p.2.friendly_name) := by
  refine ⟨?_, ?_, ?_, ?_⟩
  · rintro data rfl h
    simp only [get_current_monitors]
    rw [if_pos h]
  · rintro data rfl h
    simp only [get_current_monitors]
    rw [if_neg h]
  · rintro rfl
    rfl
  · intro p hp
    cases resp with
    | none => cases hp
    | some data =>
      simp only [get_current_monitors] at hp
      split at hp
      · exact buildDict_key _ p hp
      · cases hp

/-- Claim C10: with either SSH credential missing, the resolver answers
`([], none)` for every host — no subprocess is spawned — so the whole run
performs no events at all, and with the API key set it still exits 0. -/
theorem missing_ssh_creds_skip_all (env : Env)
    (hc : truthyOpt env.sshUser = false ∨ truthyOpt env.sshPass = false) :
    (∀ ssh_host cpu_type outcome,
      get_public_ip env ssh_host cpu_type outcome = ([], none))
    ∧ (∀ servers monResp world, main env servers monResp world = [])
    ∧ (∀ servers monResp world, truthyOpt env.apiKey = true
      → (runProcess env servers monResp world).1 = 0) := by
  refine ⟨fun ssh_host cpu_type outcome =>
    get_public_ip_no_creds env hc ssh_host cpu_type outcome, ?_, ?_⟩
  · intro servers monResp world
    unfold main
    split
    · rfl
    · rw [List.flatten_eq_nil_iff]
      intro l hl
      obtain ⟨s, -, rfl⟩ := List.mem_map.mp hl
      exact processServer_no_creds env hc world _ s
  · intro servers monResp world hkey
    unfold runProcess
    rw [hkey]
    rfl

/-- Witness for C10: username unset, one server in the inventory, a live
snapshot and a subprocess oracle that would answer — still no events. -/
theorem missing_ssh_creds_skip_all_witness :
    main ⟨some "key", none, some "pw", "x86_64"⟩
      [⟨some "edge1", some "h1", none⟩]
      (some ⟨some "ok", []⟩)
      (fun _ => some ⟨0, "1.2.3.4", ""⟩) = [] :=
  (missing_ssh_creds_skip_all ⟨some "key", none, some "pw", "x86_64"⟩
    (Or.inl rfl)).2.1 _ _ _

end SyncMonitors
